import Mathlib

/-!
Verification development for the task-manager backend.

This file gives a shallow embedding of the backend's data model and of the
operations the specification talks about:

* the reminder poller (`backend/services/reminder_scheduler.py`),
* the task CRUD service (`backend/services/task_service.py`),
* the persistence adapter (`backend/database/client.py`),
* the request-validation layer of the HTTP routes (`backend/api/routes.py`),
* the pydantic schemas (`backend/models/schemas.py`).

Database rows are modelled as Lean structures, the remote store as a
`DBState` record of row lists, and each Python function as a pure Lean
function over `DBState`.  Remote calls are modelled on their happy path
(the store performs the requested reads/writes); clock values (`datetime`)
are rationals measured in hours, so fractional `estimated_hours` arithmetic
and the one-minute buffer (`1/60` of an hour) are exact.
-/

namespace TaskManager

/-- A row of the `tasks` table.  Field names follow
`backend/models/schemas.py` (`TaskResponse`) and the column list selected in
`backend/database/client.py`.  `created_at`/`updated_at` are always written
by `SupabaseClient.create_task`, so they are total here; `updated_at` is the
`start_time` source the poller prefers (`reminder_scheduler.py` line 112). -/
structure Task where
  id : String
  title : String
  description : Option String
  priority : String
  status : String
  dueDate : Option ℚ
  estimatedHours : Option ℚ
  tags : List String
  createdAt : ℚ
  updatedAt : ℚ
  createdBy : String
deriving DecidableEq

/-- A row of the `reminders` table (`ReminderSchema` in
`backend/models/schemas.py`; columns selected in
`check_and_send_reminders`). -/
structure Reminder where
  id : String
  taskId : String
  reminderTime : ℚ
  notificationType : String
  status : String
deriving DecidableEq

/-- A row of the `notifications` table, as inserted by
`ReminderScheduler._create_notification`. -/
structure Notification where
  taskId : String
  reminderId : Option String
  notificationType : String
  title : String
  message : String
  category : String
  isRead : Bool
  createdAt : ℚ
deriving DecidableEq

/-- The remote state the backend manipulates: the three Supabase tables plus
the ChromaDB semantic index (task id paired with the embedded document). -/
structure DBState where
  tasks : List Task
  reminders : List Reminder
  notifications : List Notification
  chroma : List (String × String)
deriving DecidableEq

/-! Section: Reminder poller (`backend/services/reminder_scheduler.py`) -/

/-- The due test of the poller's reminder query
(`.eq("status", "pending").lte("reminder_time", now.isoformat())`,
`reminder_scheduler.py` line 30).  `now` is whatever clock value the caller
compares against; the code passes `datetime.now()`, the process-local naive
clock. -/
def reminderDue (r : Reminder) (now : ℚ) : Bool :=
  decide (r.status = "pending") && decide (r.reminderTime ≤ now)

/-- The batch of reminders one poll selects: the due filter capped by
`.limit(100)` (`reminder_scheduler.py` line 30). -/
def dueReminders (s : DBState) (now : ℚ) : List Reminder :=
  (s.reminders.filter (fun r => reminderDue r now)).take 100

/-- Update of a reminder's status (`_update_reminder_status`): the store
rewrites every row whose `id` matches. -/
def setReminderStatus (rs : List Reminder) (rid st : String) : List Reminder :=
  rs.map (fun r => if r.id = rid then { r with status := st } else r)

/-- The notification row `_send_reminder_notification` inserts for a due
reminder of task `t` (category `"reminder"`, unread, created at the insert
clock). -/
def mkReminderNotif (t : Task) (r : Reminder) (now : ℚ) : Notification :=
  { taskId := r.taskId
    reminderId := some r.id
    notificationType := r.notificationType
    title := "Reminder: " ++ t.title
    message := "Time to work on: " ++ t.title
    category := "reminder"
    isRead := false
    createdAt := now }

/-- One step of `_send_reminder_notification`: look the task up; if it is
missing mark the reminder `"failed"`, otherwise insert one notification row
and mark the reminder `"sent"`. -/
def sendReminderNotification (s : DBState) (r : Reminder) (now : ℚ) : DBState :=
  match s.tasks.find? (fun t => decide (t.id = r.taskId)) with
  | none =>
      { s with reminders := setReminderStatus s.reminders r.id "failed" }
  | some t =>
      { s with
        notifications := s.notifications ++ [mkReminderNotif t r now]
        reminders := setReminderStatus s.reminders r.id "sent" }

/-- Part 1 of `check_and_send_reminders`: fetch the due batch once, then
process it sequentially. -/
def checkReminders (s : DBState) (now : ℚ) : DBState :=
  (dueReminders s now).foldl (fun st r => sendReminderNotification st r now) s

/-- The elapsed test of `_check_estimated_time_completions`
(`now >= expected_completion - timedelta(minutes=1)`), with times in hours
and the buffer `1/60`. -/
def estElapsed (start h now : ℚ) : Bool :=
  decide (start + h - 1/60 ≤ now)

/-- The dedup query of `_check_estimated_time_completions`: unread
notifications of category `"estimated_time"` for the task. -/
def unreadEstNotifs (s : DBState) (tid : String) : List Notification :=
  s.notifications.filter (fun n =>
    decide (n.taskId = tid) && decide (n.category = "estimated_time") && !n.isRead)

/-- The notification row inserted when a task's estimated time is reached.
The Python message interpolates the hour count; the numeric formatting is
elided as it plays no role in any property. -/
def mkEstNotif (t : Task) (now : ℚ) : Notification :=
  { taskId := t.id
    reminderId := none
    notificationType := "in_app"
    title := "Estimated Time Complete: " ++ t.title
    message := "The estimated time for the task has been reached."
    category := "estimated_time"
    isRead := false
    createdAt := now }

/-- The per-task body of `_check_estimated_time_completions`: skip when no
positive estimate, otherwise compare `updated_at + estimated_hours` against
`now` (1 minute early) and insert a notification unless an unread one of the
same category already exists for the task. -/
def processEstTask (st : DBState) (t : Task) (now : ℚ) : DBState :=
  match t.estimatedHours with
  | none => st
  | some h =>
      if decide (h ≤ 0) then st
      else if estElapsed t.updatedAt h now then
        if (unreadEstNotifs st t.id).isEmpty then
          { st with notifications := st.notifications ++ [mkEstNotif t now] }
        else st
      else st

/-- The task query of `_check_estimated_time_completions`: `in_progress`
tasks with a non-null positive `estimated_hours`. -/
def inProgressEstTasks (s : DBState) : List Task :=
  s.tasks.filter (fun t =>
    decide (t.status = "in_progress") &&
      (match t.estimatedHours with
       | some h => decide (0 < h)
       | none => false))

/-- Part 2 of `check_and_send_reminders`: fetch the in-progress batch once,
then process it sequentially (the dedup query inside each step sees the rows
inserted by earlier steps). -/
def checkEstimatedTime (s : DBState) (now : ℚ) : DBState :=
  (inProgressEstTasks s).foldl (fun st t => processEstTask st t now) s

/-- One poll cycle (`check_and_send_reminders`): due reminders first, then
estimated-time completions, both against the same clock value. -/
def pollCycle (s : DBState) (now : ℚ) : DBState :=
  checkEstimatedTime (checkReminders s now) now

/-- The clock the poller actually reads (`datetime.now()`,
`reminder_scheduler.py` line 23): the process-local naive time, i.e. UTC
plus the process's local timezone offset. -/
def localNow (utc offset : ℚ) : ℚ :=
  utc + offset

/-! Section: Observables of the poller used by the theorems -/

/-- Status of the reminder row with the given id, if present. -/
def statusOf (s : DBState) (rid : String) : Option String :=
  (s.reminders.find? (fun r => decide (r.id = rid))).map Reminder.status

/-- Number of notification rows referencing the given reminder id. -/
def notifCountFor (s : DBState) (rid : String) : Nat :=
  (s.notifications.filter (fun n => decide (n.reminderId = some rid))).length

/-! Section: Pydantic schemas (`backend/models/schemas.py`) -/

/-- Python `str.strip` whitespace set (ASCII part): space, tab, newline,
carriage return, vertical tab, form feed. -/
def pyWhitespace (c : Char) : Bool :=
  c = ' ' || c = '\t' || c = '\n' || c = '\r' || c = '\x0b' || c = '\x0c'

/-- Python `str.strip()`: drop leading and trailing whitespace. -/
def pyStrip (s : String) : String :=
  String.mk (((s.toList.dropWhile pyWhitespace).reverse.dropWhile pyWhitespace).reverse)

/-- Python `str.lower()` (ASCII part), used to normalize list filters. -/
def pyLower (s : String) : String :=
  String.mk (s.toList.map Char.toLower)

/-- The values of the `TaskPriority` enum. -/
def validPriorities : List String := ["low", "medium", "high", "urgent"]

/-- The values of the `TaskStatus` enum. -/
def validStatuses : List String := ["pending", "in_progress", "completed", "archived"]

/-- A raw `POST /tasks` payload before pydantic validation, with the schema's
defaults (`priority` medium, `status` pending, empty tags). -/
structure TaskCreateRaw where
  title : String
  description : Option String := none
  priority : String := "medium"
  status : String := "pending"
  dueDate : Option ℚ := none
  estimatedHours : Option ℚ := none
  tags : List String := []
  assignedTo : Option String := none
  createdBy : Option String := none
deriving DecidableEq

/-- Pydantic validation of `TaskCreate`/`TaskBase`: `title` length in
`[1,255]` (checked on the raw value, before the `validate_title` strip runs),
`description` at most 2000 characters, `priority`/`status` drawn from their
enums, and `estimated_hours`, when given, in `[0,24]`
(`Field(None, ge=0, le=24)`, `schemas.py` line 24). -/
def taskCreateValid (r : TaskCreateRaw) : Bool :=
  decide (1 ≤ r.title.length) && decide (r.title.length ≤ 255) &&
  (match r.description with
   | some d => decide (d.length ≤ 2000)
   | none => true) &&
  validPriorities.contains r.priority &&
  validStatuses.contains r.status &&
  (match r.estimatedHours with
   | some h => decide (0 ≤ h) && decide (h ≤ 24)
   | none => true)

/-- A `PATCH /tasks/{id}` body after `model_dump(exclude_unset=True)`:
`none` means the field was absent from the request.  Mirrors `TaskUpdate`
in `schemas.py` lines 36-43; note that, unlike `TaskBase`, it declares
`estimated_hours: Optional[float] = None` with no `ge`/`le` bounds and
`title: Optional[str] = None` with no length bound or strip validator. -/
structure TaskUpdate where
  title : Option String := none
  description : Option String := none
  priority : Option String := none
  status : Option String := none
  dueDate : Option ℚ := none
  estimatedHours : Option ℚ := none
  tags : Option (List String) := none
deriving DecidableEq

/-- Pydantic validation of `TaskUpdate`: only the enum-typed fields are
constrained; `estimated_hours` and `title` are accepted unchecked. -/
def taskUpdateValid (u : TaskUpdate) : Bool :=
  (match u.priority with
   | some p => validPriorities.contains p
   | none => true) &&
  (match u.status with
   | some st => validStatuses.contains st
   | none => true)

/-- The empty `PATCH` body: no field set. -/
def emptyTaskUpdate : TaskUpdate := {}

/-- Test used by `SupabaseClient.update_task` (`if not updates`): every
field unset. -/
def isEmptyUpdate (u : TaskUpdate) : Bool :=
  u.title.isNone && u.description.isNone && u.priority.isNone && u.status.isNone &&
  u.dueDate.isNone && u.estimatedHours.isNone && u.tags.isNone

/-! Section: Persistence adapter (`backend/database/client.py`) and task service
(`backend/services/task_service.py`) -/

/-- The document mirrored into the semantic index:
`f"{title}. {description or ''}"` (with `None` rendered empty). -/
def chromaContent (t : Task) : String :=
  t.title ++ ". " ++ t.description.getD ""

/-- `ChromaDBClient.add_task_embedding`: append the task's document. -/
def chromaAdd (c : List (String × String)) (t : Task) : List (String × String) :=
  c ++ [(t.id, chromaContent t)]

/-- `ChromaDBClient.update_task_embedding`: rewrite the entry for the id. -/
def chromaUpdate (c : List (String × String)) (t : Task) : List (String × String) :=
  c.map (fun p => if p.1 = t.id then (p.1, chromaContent t) else p)

/-- `ChromaDBClient.delete_task_embedding`: drop the entry for the id. -/
def chromaDelete (c : List (String × String)) (id : String) : List (String × String) :=
  c.filter (fun p => decide (p.1 ≠ id))

/-- `TaskService.create_task` composed with `SupabaseClient.create_task`
on a payload that already passed pydantic validation.  The service dumps the
model (title already stripped by `validate_title`), replaces an absent
`estimated_hours` by `0.0` (`task_service.py` lines 28-29); the client
fills `id` (a fresh UUID, here `genId`), both timestamps, and a default
`created_by` when none was supplied, then inserts the row.  The ChromaDB
mirror runs inside `try/except`: `chromaOk` says whether it succeeds; on
failure only a warning is logged and the stored result is returned
unchanged. -/
def createTaskService (s : DBState) (r : TaskCreateRaw) (genId creator : String)
    (now : ℚ) (chromaOk : Bool) : Task × DBState :=
  let t : Task :=
    { id := genId
      title := pyStrip r.title
      description := r.description
      priority := r.priority
      status := r.status
      dueDate := r.dueDate
      estimatedHours := some (r.estimatedHours.getD 0)
      tags := r.tags
      createdAt := now
      updatedAt := now
      createdBy := r.createdBy.getD creator }
  let s1 : DBState := { s with tasks := s.tasks ++ [t] }
  let s2 : DBState := if chromaOk then { s1 with chroma := chromaAdd s1.chroma t } else s1
  (t, s2)

/-- `SupabaseClient.get_task`: the row with the given id, if any. -/
def getTaskClient (s : DBState) (id : String) : Option Task :=
  s.tasks.find? (fun t => decide (t.id = id))

/-- Merge of a `PATCH` body into a row, as the store's `UPDATE ... SET`
performs it; `updated_at` is always refreshed
(`client.py` line 140). -/
def applyUpdate (t : Task) (u : TaskUpdate) (now : ℚ) : Task :=
  { t with
    title := u.title.getD t.title
    description := match u.description with
      | some d => some d
      | none => t.description
    priority := u.priority.getD t.priority
    status := u.status.getD t.status
    dueDate := match u.dueDate with
      | some d => some d
      | none => t.dueDate
    estimatedHours := match u.estimatedHours with
      | some h => some h
      | none => t.estimatedHours
    tags := u.tags.getD t.tags
    updatedAt := now }

/-- `SupabaseClient.update_task`: an empty update dict returns `None`
before any store call (`client.py` lines 135-137); otherwise the store
rewrites every row whose id matches and returns the first rewritten row,
or `None` when no row matched. -/
def updateTaskClient (s : DBState) (id : String) (u : TaskUpdate) (now : ℚ) :
    Option Task × DBState :=
  if isEmptyUpdate u then (none, s)
  else
    match s.tasks.find? (fun t => decide (t.id = id)) with
    | none => (none, s)
    | some t => (some (applyUpdate t u now),
        { s with tasks := s.tasks.map (fun x => if x.id = id then applyUpdate x u now else x) })

/-- `TaskService.update_task`: delegate to the client, then mirror into
ChromaDB inside `try/except` only when a row was returned; a mirror failure
(`chromaOk = false`) is logged and the result returned unchanged. -/
def updateTaskService (s : DBState) (id : String) (u : TaskUpdate) (now : ℚ)
    (chromaOk : Bool) : Option Task × DBState :=
  match updateTaskClient s id u now with
  | (none, s1) => (none, s1)
  | (some t, s1) =>
      (some t, if chromaOk then { s1 with chroma := chromaUpdate s1.chroma t } else s1)

/-- `SupabaseClient.delete_task`: issue the delete and return `True`
unconditionally — the response is not inspected (`client.py`
lines 156-159). -/
def deleteTaskClient (s : DBState) (id : String) : Bool × DBState :=
  (true, { s with tasks := s.tasks.filter (fun t => decide (t.id ≠ id)) })

/-- `TaskService.delete_task`: delegate to the client; on success also drop
the ChromaDB entry inside `try/except` (`chromaOk` as above). -/
def deleteTaskService (s : DBState) (id : String) (chromaOk : Bool) : Bool × DBState :=
  match deleteTaskClient s id with
  | (ok, s1) =>
      if ok then
        (ok, if chromaOk then { s1 with chroma := chromaDelete s1.chroma id } else s1)
      else (ok, s1)

/-- Descending insertion by `created_at` (the store's
`order("created_at", desc=True)`). -/
def insertByCreatedDesc (t : Task) : List Task → List Task
  | [] => [t]
  | h :: tl => if h.createdAt ≤ t.createdAt then t :: h :: tl else h :: insertByCreatedDesc t tl

/-- Sort by `created_at` descending. -/
def sortByCreatedDesc : List Task → List Task
  | [] => []
  | h :: tl => insertByCreatedDesc h (sortByCreatedDesc tl)

/-- `SupabaseClient.list_tasks`: filter on the (lowercased) status and
priority, order by creation time descending, and page with
`.range(offset, offset + limit - 1)`, i.e. drop `offset` rows and take
`limit`. -/
def listTasksClient (s : DBState) (status? priority? : Option String)
    (limit offset : Nat) : List Task :=
  let rows := s.tasks.filter (fun t =>
    (match status? with
     | some st => decide (t.status = pyLower st)
     | none => true) &&
    (match priority? with
     | some p => decide (t.priority = pyLower p)
     | none => true))
  ((sortByCreatedDesc rows).drop offset).take limit

/-- `TaskService.list_tasks`: lowercase the filters, then delegate (the
client lowercases once more; lowering is idempotent). -/
def listTasksService (s : DBState) (status? priority? : Option String)
    (limit offset : Nat) : List Task :=
  listTasksClient s (status?.map pyLower) (priority?.map pyLower) limit offset

/-! Section: HTTP route validation layer (`backend/api/routes.py`) -/

/-- Hex digit as Python `[0-9a-f]` under `re.IGNORECASE`. -/
def isHexDigit (c : Char) : Bool :=
  c.isDigit || ('a' ≤ c && c ≤ 'f') || ('A' ≤ c && c ≤ 'F')

/-- The 8-4-4-4-12 UUID shape matched by the routes' regex body. -/
def isUuidShape (s : String) : Bool :=
  let cs := s.toList
  decide (cs.length = 36) &&
  (List.range 36).all (fun i =>
    if i = 8 || i = 13 || i = 18 || i = 23 then cs.getD i ' ' = '-'
    else isHexDigit (cs.getD i ' '))

/-- The exact language of
`re.match(r'^[0-9a-f]{8}-...-[0-9a-f]{12}$', id, re.IGNORECASE)`: without
`re.MULTILINE`, Python's `$` matches at the end of the string or just
before one final newline, so the pattern also accepts the UUID shape
followed by a single trailing `'\n'`. -/
def uuidPatternAccepts (s : String) : Bool :=
  isUuidShape s ||
    (match s.toList.getLast? with
     | some c => c = '\n' && isUuidShape (String.mk s.toList.dropLast)
     | none => false)

/-- Outcome of one request as the claims observe it: HTTP status code, the
returned row when there is one, the store state afterwards, and whether any
persistence (store table) operation was executed. -/
structure RouteResult where
  status : Nat
  body : Option Task
  state : DBState
  persisted : Bool
deriving DecidableEq

/-- `GET /tasks/{id}` (`routes.py` lines 108-120): reject a non-matching id
with 400 before any persistence call; otherwise 404 when the row is
missing, 200 with the row when present. -/
def getTaskRoute (s : DBState) (id : String) : RouteResult :=
  if uuidPatternAccepts id then
    match getTaskClient s id with
    | none => { status := 404, body := none, state := s, persisted := true }
    | some t => { status := 200, body := some t, state := s, persisted := true }
  else { status := 400, body := none, state := s, persisted := false }

/-- `PATCH /tasks/{id}` (`routes.py` lines 122-145).  FastAPI validates the
`TaskUpdate` body while parsing the request, before the handler's UUID
check runs, so an invalid body yields 422 first; then a non-matching id
yields 400; then the service runs — its `None` result is surfaced as 404.
`persisted` records whether a store table operation actually executed (the
client returns early, touching nothing, on an empty update). -/
def updateTaskRoute (s : DBState) (id : String) (u : TaskUpdate) (now : ℚ)
    (chromaOk : Bool) : RouteResult :=
  if taskUpdateValid u then
    if uuidPatternAccepts id then
      match updateTaskService s id u now chromaOk with
      | (none, s1) =>
          { status := 404, body := none, state := s1, persisted := !isEmptyUpdate u }
      | (some t, s1) =>
          { status := 200, body := some t, state := s1, persisted := true }
    else { status := 400, body := none, state := s, persisted := false }
  else { status := 422, body := none, state := s, persisted := false }

/-- `DELETE /tasks/{id}` (`routes.py` lines 147-170): reject a non-matching
id with 400; otherwise run the service and answer 204 on success — the 404
branch exists in the route but `SupabaseClient.delete_task` always reports
success, so it is unreachable. -/
def deleteTaskRoute (s : DBState) (id : String) (chromaOk : Bool) : RouteResult :=
  if uuidPatternAccepts id then
    match deleteTaskService s id chromaOk with
    | (ok, s1) =>
        if ok then { status := 204, body := none, state := s1, persisted := true }
        else { status := 404, body := none, state := s1, persisted := true }
  else { status := 400, body := none, state := s, persisted := false }

/-! Section: Concrete instances used by counterexamples and witnesses -/

/-- A well-formed UUID string. -/
def sampleUuid : String := "00000000-0000-0000-0000-000000000000"

/-- The same UUID with one trailing newline: 37 characters, not a UUID. -/
def newlineUuid : String := "00000000-0000-0000-0000-000000000000\n"

/-- Empty store. -/
def emptyDB : DBState := { tasks := [], reminders := [], notifications := [], chroma := [] }

/-- A task used by the scheduler scenarios. -/
def demoTask : Task :=
  { id := "t1", title := "T", description := none, priority := "medium",
    status := "pending", dueDate := none, estimatedHours := none, tags := [],
    createdAt := 0, updatedAt := 0, createdBy := "u" }

/-- The n-th of a family of due pending reminders for `demoTask`. -/
def demoReminder (n : Nat) : Reminder :=
  { id := toString n, taskId := "t1", reminderTime := (n : ℚ),
    notificationType := "in_app", status := "pending" }

/-- A store holding 101 reminders that are all pending and due at clock
value 1000 — one more than the poll's 100-row cap. -/
def overCapState : DBState :=
  { tasks := [demoTask], reminders := (List.range 101).map demoReminder,
    notifications := [], chroma := [] }

/-- A store holding a single due pending reminder. -/
def oneReminderState : DBState :=
  { tasks := [demoTask], reminders := [demoReminder 0], notifications := [], chroma := [] }

/-- An in-progress task with a one-hour estimate. -/
def inProgressTask : Task :=
  { id := "t2", title := "B", description := none, priority := "medium",
    status := "in_progress", dueDate := none, estimatedHours := some 1, tags := [],
    createdAt := 0, updatedAt := 0, createdBy := "u" }

/-- A store holding just `inProgressTask`. -/
def inProgressState : DBState :=
  { tasks := [inProgressTask], reminders := [], notifications := [], chroma := [] }

/-- A pending reminder due at clock value 73. -/
def demoDueReminder : Reminder :=
  { id := "r1", taskId := "t1", reminderTime := 73, notificationType := "in_app",
    status := "pending" }

/-- A valid creation payload with a 2-hour estimate. -/
def demoRaw : TaskCreateRaw := { title := "a", estimatedHours := some 2 }

/-- The store after creating `demoRaw` under id `sampleUuid`. -/
def demoCreatedState : DBState :=
  (createTaskService emptyDB demoRaw sampleUuid "creator" 0 true).2

/-- A partial update setting a 25-hour estimate — accepted by `TaskUpdate`,
which does not bound the field. -/
def overEstUpdate : TaskUpdate := { estimatedHours := some 25 }

/-! Section: General list lemmas shared by the claim proofs -/

theorem find?_append_of_none {α : Type} {p : α → Bool} {l1 l2 : List α}
    (h : l1.find? p = none) : (l1 ++ l2).find? p = l2.find? p := by
  induction l1 with
  | nil => rfl
  | cons a tl ih =>
      rw [List.find?_cons] at h
      rcases hpa : p a with _ | _
      · simp only [List.cons_append, List.find?_cons, hpa]
        exact ih (by rwa [hpa] at h)
      · rw [hpa] at h; exact absurd h (by simp)

theorem map_congr_mem {α β : Type} {f g : α → β} {l : List α}
    (h : ∀ a ∈ l, f a = g a) : l.map f = l.map g := by
  induction l with
  | nil => rfl
  | cons a tl ih =>
      simp only [List.map_cons, h a (by simp)]
      rw [ih (fun x hx => h x (by simp [hx]))]

/-! Section: Claim C5 — delete of a missing id does not return the
not-found signal -/

/-- Claim C5 (code bug evaluation).  For a well-formed UUID matching no
stored record: `get` and `update` do return 404, but `delete` answers 204
success — `SupabaseClient.delete_task` returns `True` unconditionally, so
the route's 404 branch is unreachable and the claim's "each of get, update
and delete returns the distinct not-found signal" fails for delete. -/
theorem C5_delete_missing_returns_204 :
    getTaskClient emptyDB sampleUuid = none ∧
    (getTaskRoute emptyDB sampleUuid).status = 404 ∧
    (updateTaskRoute emptyDB sampleUuid { title := some "x" } 0 true).status = 404 ∧
    (deleteTaskRoute emptyDB sampleUuid true).status = 204 := by
  decide

/-! Section: Claim C8 — semantic-index failures are invisible to callers -/

/-- Claim C8.  For create, update and delete, a failing ChromaDB mirror
step (`chromaOk = false`) yields the same returned result and the same
stored task rows as a succeeding one; the mirror call sits inside
`try/except`, so no failure propagates. -/
theorem C8_index_failure_invisible (s : DBState) (r : TaskCreateRaw)
    (genId creator : String) (now : ℚ) (id : String) (u : TaskUpdate)
    (now2 : ℚ) (id2 : String) :
    ((createTaskService s r genId creator now true).1 =
        (createTaskService s r genId creator now false).1 ∧
      (createTaskService s r genId creator now true).2.tasks =
        (createTaskService s r genId creator now false).2.tasks) ∧
    ((updateTaskService s id u now2 true).1 = (updateTaskService s id u now2 false).1 ∧
      (updateTaskService s id u now2 true).2.tasks =
        (updateTaskService s id u now2 false).2.tasks) ∧
    ((deleteTaskService s id2 true).1 = (deleteTaskService s id2 false).1 ∧
      (deleteTaskService s id2 true).2.tasks =
        (deleteTaskService s id2 false).2.tasks) := by
  refine ⟨⟨rfl, rfl⟩, ⟨?_, ?_⟩, rfl, rfl⟩ <;>
    rcases h : updateTaskClient s id u now2 with ⟨res, s1⟩ <;>
    cases res <;> simp [updateTaskService, h]

/-! Section: Claim C9 — malformed identifiers are rejected before
persistence -/

/-- Claim C9 counterexample.  The identifier consisting of a well-formed
UUID followed by one newline is not a well-formed UUID, yet the route does
not reject it: Python's `$` anchor (without `re.MULTILINE`) matches just
before a final newline, so the request reaches persistence (`persisted`)
and is answered 404 rather than 400. -/
theorem C9_trailing_newline_counterexample :
    isUuidShape newlineUuid = false ∧
    uuidPatternAccepts newlineUuid = true ∧
    (getTaskRoute emptyDB newlineUuid).status = 404 ∧
    (getTaskRoute emptyDB newlineUuid).persisted = true := by
  decide

/-- Claim C9 as amended.  Any identifier rejected by the routes' actual
regex — which accepts the 8-4-4-4-12 hex shape, optionally followed by a
single trailing newline — is answered with a client validation error
(400 from the handler's check, or 422 from body validation for `PATCH`)
with no persistence operation invoked and the store untouched. -/
theorem C9_validation_gate (s : DBState) (id : String) (u : TaskUpdate)
    (now : ℚ) (ok : Bool) (h : uuidPatternAccepts id = false) :
    getTaskRoute s id = { status := 400, body := none, state := s, persisted := false } ∧
    ((updateTaskRoute s id u now ok).status = 400 ∨
      (updateTaskRoute s id u now ok).status = 422) ∧
    (updateTaskRoute s id u now ok).persisted = false ∧
    (updateTaskRoute s id u now ok).state = s ∧
    deleteTaskRoute s id ok = { status := 400, body := none, state := s, persisted := false } := by
  refine ⟨by simp [getTaskRoute, h], ?_, ?_, ?_, by simp [deleteTaskRoute, h]⟩ <;>
    by_cases hv : taskUpdateValid u <;> simp [updateTaskRoute, h, hv]

/-- Witness for `C9_validation_gate` at the malformed identifier `"abc"`. -/
theorem C9_validation_gate_witness :
    getTaskRoute emptyDB "abc" =
      { status := 400, body := none, state := emptyDB, persisted := false } ∧
    ((updateTaskRoute emptyDB "abc" overEstUpdate 0 true).status = 400 ∨
      (updateTaskRoute emptyDB "abc" overEstUpdate 0 true).status = 422) ∧
    (updateTaskRoute emptyDB "abc" overEstUpdate 0 true).persisted = false ∧
    (updateTaskRoute emptyDB "abc" overEstUpdate 0 true).state = emptyDB ∧
    deleteTaskRoute emptyDB "abc" true =
      { status := 400, body := none, state := emptyDB, persisted := false } :=
  C9_validation_gate emptyDB "abc" overEstUpdate 0 true (by decide)

/-! Section: Claim C10 — an empty PATCH body yields 404 and changes
nothing -/

/-- Claim C10.  For any store and any identifier the routes accept — even
one naming an existing task — a `PATCH` whose body sets no fields is
answered 404 ("Task not found"): `SupabaseClient.update_task` returns
`None` on an empty update dict before any store call, so the store is left
unchanged and no persistence operation runs. -/
theorem C10_empty_patch_404 (s : DBState) (id : String) (now : ℚ) (ok : Bool)
    (hid : uuidPatternAccepts id = true) (_hex : ∃ t ∈ s.tasks, t.id = id) :
    updateTaskRoute s id emptyTaskUpdate now ok =
      { status := 404, body := none, state := s, persisted := false } := by
  simp [updateTaskRoute, hid, updateTaskService, updateTaskClient,
    emptyTaskUpdate, isEmptyUpdate, taskUpdateValid]

/-- Witness for `C10_empty_patch_404` on a store that contains a task with
id `sampleUuid`. -/
theorem C10_empty_patch_404_witness :
    updateTaskRoute demoCreatedState sampleUuid emptyTaskUpdate 1 true =
      { status := 404, body := none, state := demoCreatedState, persisted := false } :=
  C10_empty_patch_404 demoCreatedState sampleUuid 1 true (by decide) (by decide)

/-! Section: Claim C2 — the estimated-duration invariant under create and
update -/

/-- Claim C2 counterexample.  A task created with a valid 2-hour estimate,
then updated through the public `PATCH` operation with a 25-hour estimate:
`TaskUpdate` accepts the value (it declares no bounds), the route answers
200, and the stored estimate ends up at 25 — outside `[0,24]`. -/
theorem C2_update_unbounded_counterexample :
    taskCreateValid demoRaw = true ∧
    taskUpdateValid overEstUpdate = true ∧
    (updateTaskRoute demoCreatedState sampleUuid overEstUpdate 1 true).status = 200 ∧
    (updateTaskRoute demoCreatedState sampleUuid overEstUpdate 1 true).state.tasks.map
        Task.estimatedHours = [some 25] ∧
    ¬ ((25 : ℚ) ≤ 24) := by
  decide

/-- Claim C2 as amended.  Creation establishes the invariant: whatever
estimate a validated payload yields (including the service's `0.0` default)
lies in `[0,24]`.  A partial update whose `estimated_hours` field is unset
preserves every stored estimate — but `TaskUpdate` does not validate the
field, so an update that sets it can store any value
(`C2_update_unbounded_counterexample`). -/
theorem C2_bounds_create_and_unset_update (s : DBState) (r : TaskCreateRaw)
    (genId creator : String) (now : ℚ) (ok : Bool) (s2 : DBState) (id : String)
    (u : TaskUpdate) (now2 : ℚ) (ok2 : Bool)
    (hv : taskCreateValid r = true) (hu : u.estimatedHours = none) :
    (∀ q : ℚ, (createTaskService s r genId creator now ok).1.estimatedHours = some q →
      0 ≤ q ∧ q ≤ 24) ∧
    (updateTaskService s2 id u now2 ok2).2.tasks.map Task.estimatedHours =
      s2.tasks.map Task.estimatedHours := by
  constructor
  · intro q hq
    simp only [createTaskService] at hq
    rcases hre : r.estimatedHours with _ | x
    · rw [hre] at hq
      simp only [Option.getD_none, Option.some.injEq] at hq
      subst hq
      norm_num
    · rw [hre] at hq
      simp only [Option.getD_some, Option.some.injEq] at hq
      subst hq
      simp only [taskCreateValid, hre, Bool.and_eq_true, decide_eq_true_eq] at hv
      exact hv.2
  · simp only [updateTaskService, updateTaskClient]
    rcases he : isEmptyUpdate u with _ | _
    · simp only [he, Bool.false_eq_true, if_false]
      rcases hf : s2.tasks.find? (fun t => decide (t.id = id)) with _ | t
      · simp [hf]
      · simp only [hf]
        have : (s2.tasks.map (fun x => if x.id = id then applyUpdate x u now2 else x)).map
            Task.estimatedHours = s2.tasks.map Task.estimatedHours := by
          rw [List.map_map]
          apply map_congr_mem
          intro a _
          by_cases hid : a.id = id <;> simp [hid, applyUpdate, hu]
        cases ok2 <;> simpa using this
    · simp [he]

/-- Witness for `C2_bounds_create_and_unset_update` on the demo payload and
the demo store, with the empty update. -/
theorem C2_bounds_witness :
    (∀ q : ℚ, (createTaskService emptyDB demoRaw sampleUuid "creator" 0 true).1.estimatedHours =
        some q → 0 ≤ q ∧ q ≤ 24) ∧
    (updateTaskService demoCreatedState sampleUuid emptyTaskUpdate 1 true).2.tasks.map
        Task.estimatedHours = demoCreatedState.tasks.map Task.estimatedHours :=
  C2_bounds_create_and_unset_update emptyDB demoRaw sampleUuid "creator" 0 true
    demoCreatedState sampleUuid emptyTaskUpdate 1 true (by decide) rfl

/-! Section: Claim C3 — the poller's clock comparisons and the local
timezone -/

/-- Claim C3 counterexample.  The poller compares stored fire times against
`datetime.now()`, the process-local naive clock (UTC plus the local
offset).  At the same UTC instant 70, a pending reminder due at 73 is
selected by a process running at the IST offset (five and a half hours) and
not selected by one running at UTC — the comparison result depends on the
process's local timezone, so it is not performed in a fixed civil
timezone. -/
theorem C3_local_clock_counterexample :
    reminderDue demoDueReminder (localNow 70 (11/2)) = true ∧
    reminderDue demoDueReminder (localNow 70 0) = false ∧
    dueReminders ⟨[], [demoDueReminder], [], []⟩ (localNow 70 (11/2)) = [demoDueReminder] ∧
    dueReminders ⟨[], [demoDueReminder], [], []⟩ (localNow 70 0) = [] := by
  have h1 : reminderDue demoDueReminder (localNow 70 (11/2)) = true := by
    norm_num [reminderDue, localNow, demoDueReminder]
  have h2 : reminderDue demoDueReminder (localNow 70 0) = false := by
    norm_num [reminderDue, localNow, demoDueReminder]
  refine ⟨h1, h2, ?_, ?_⟩
  · simp [dueReminders, h1]
  · simp [dueReminders, h2]

/-- Claim C3 as amended.  Both comparisons the poller makes — due-reminder
selection and estimated-duration elapse — are made against the local clock
`utc + offset`; each is monotone in the offset, and two processes at
offsets `o1 ≤ o2` disagree about a reminder at the same UTC instant exactly
when it is pending with fire time in the window `(utc + o1, utc + o2]`. -/
theorem C3_offset_dependence (r : Reminder) (start h utc o1 o2 : ℚ)
    (hle : o1 ≤ o2) :
    (reminderDue r (localNow utc o1) = true → reminderDue r (localNow utc o2) = true) ∧
    (estElapsed start h (localNow utc o1) = true → estElapsed start h (localNow utc o2) = true) ∧
    ((reminderDue r (localNow utc o1) ≠ reminderDue r (localNow utc o2)) ↔
      r.status = "pending" ∧ utc + o1 < r.reminderTime ∧ r.reminderTime ≤ utc + o2) := by
  have e1 : reminderDue r (localNow utc o1) =
      decide (r.status = "pending" ∧ r.reminderTime ≤ utc + o1) := by
    simp [reminderDue, localNow, Bool.decide_and]
  have e2 : reminderDue r (localNow utc o2) =
      decide (r.status = "pending" ∧ r.reminderTime ≤ utc + o2) := by
    simp [reminderDue, localNow, Bool.decide_and]
  refine ⟨?_, ?_, ?_⟩
  · intro h1
    rw [e1, decide_eq_true_eq] at h1
    rw [e2, decide_eq_true_eq]
    exact ⟨h1.1, by linarith [h1.2]⟩
  · intro h1
    rw [estElapsed, decide_eq_true_eq] at h1
    rw [estElapsed, decide_eq_true_eq, localNow]
    rw [localNow] at h1
    linarith
  · rw [e1, e2, ne_eq, decide_eq_decide]
    constructor
    · intro hne
      by_cases hp : r.status = "pending"
      · by_cases h1 : r.reminderTime ≤ utc + o1
        · exact absurd (iff_of_true ⟨hp, h1⟩ ⟨hp, by linarith⟩) hne
        · by_cases h2 : r.reminderTime ≤ utc + o2
          · exact ⟨hp, by linarith, h2⟩
          · exact absurd (iff_of_false (fun hx => h1 hx.2) (fun hx => h2 hx.2)) hne
      · exact absurd (iff_of_false (fun hx => hp hx.1) (fun hx => hp hx.1)) hne
    · rintro ⟨hp, hlt, hle2⟩ hiff
      have := (hiff.mpr ⟨hp, hle2⟩).2
      linarith

/-- Witness for `C3_offset_dependence` at the demo reminder, UTC instant
70, and the offsets 0 (UTC) and eleven halves (IST). -/
theorem C3_offset_dependence_witness :
    (reminderDue demoDueReminder (localNow 70 0) = true →
      reminderDue demoDueReminder (localNow 70 (11/2)) = true) ∧
    (estElapsed 0 1 (localNow 70 0) = true → estElapsed 0 1 (localNow 70 (11/2)) = true) ∧
    ((reminderDue demoDueReminder (localNow 70 0) ≠
        reminderDue demoDueReminder (localNow 70 (11/2))) ↔
      demoDueReminder.status = "pending" ∧ 70 + 0 < demoDueReminder.reminderTime ∧
        demoDueReminder.reminderTime ≤ 70 + 11/2) :=
  C3_offset_dependence demoDueReminder 0 1 70 0 (11/2) (by norm_num)

/-! Section: Claim C6 — status filtering is restrictive and
case-insensitive -/

theorem mem_insertByCreatedDesc {a t : Task} {l : List Task} :
    a ∈ insertByCreatedDesc t l ↔ a = t ∨ a ∈ l := by
  induction l with
  | nil => simp [insertByCreatedDesc]
  | cons b tl ih =>
      simp only [insertByCreatedDesc]
      split
      · simp [List.mem_cons]
      · simp only [List.mem_cons, ih]
        tauto

theorem mem_sortByCreatedDesc {a : Task} {l : List Task} :
    a ∈ sortByCreatedDesc l ↔ a ∈ l := by
  induction l with
  | nil => simp [sortByCreatedDesc]
  | cons b tl ih => simp [sortByCreatedDesc, mem_insertByCreatedDesc, ih]

/-- Claim C6.  Listing with any case variant of the status filter
`"pending"` returns only rows whose stored status equals `"pending"`, and
every case variant produces the same result list: the service (and the
client below it) lowercase the filter before the equality comparison. -/
theorem C6_pending_filter_case_insensitive (s : DBState) (c c2 : String)
    (prio : Option String) (limit offset : Nat)
    (hc : pyLower c = "pending") (hc2 : pyLower c2 = pyLower c) :
    (∀ t ∈ listTasksService s (some c) prio limit offset, t.status = "pending") ∧
    listTasksService s (some c) prio limit offset =
      listTasksService s (some c2) prio limit offset := by
  have hpend : pyLower "pending" = "pending" := by decide
  have e1 : listTasksService s (some c) prio limit offset =
      listTasksClient s (some "pending") (prio.map pyLower) limit offset := by
    unfold listTasksService
    rw [show (some c).map pyLower = some "pending" by simp [hc]]
  have e2 : listTasksService s (some c2) prio limit offset =
      listTasksClient s (some "pending") (prio.map pyLower) limit offset := by
    unfold listTasksService
    rw [show (some c2).map pyLower = some "pending" by simp [hc2.trans hc]]
  refine ⟨?_, e1.trans e2.symm⟩
  intro t ht
  rw [e1] at ht
  simp only [listTasksClient] at ht
  have ht2 := List.mem_of_mem_drop (List.mem_of_mem_take ht)
  rw [mem_sortByCreatedDesc] at ht2
  have hcond := (List.mem_filter.mp ht2).2
  simp only [Bool.and_eq_true, decide_eq_true_eq] at hcond
  rw [hpend] at hcond
  exact hcond.1

/-- Witness for `C6_pending_filter_case_insensitive` with the mixed-case
filter `"PenDing"` against `"PENDING"`. -/
theorem C6_pending_filter_witness :
    (∀ t ∈ listTasksService demoCreatedState (some "PenDing") none 50 0,
      t.status = "pending") ∧
    listTasksService demoCreatedState (some "PenDing") none 50 0 =
      listTasksService demoCreatedState (some "PENDING") none 50 0 :=
  C6_pending_filter_case_insensitive demoCreatedState "PenDing" "PENDING" none 50 0
    (by decide) (by decide)

/-! Section: Claim C7 — create-then-get returns the stripped title and a
bounded estimate -/

/-- Claim C7.  For every payload that passes pydantic validation, creating
a task under a fresh id and then getting that id returns exactly the stored
row; its title is the input title with surrounding whitespace stripped
(`validate_title`), and when an estimated duration was given the stored
value equals it and lies in `[0,24]`. -/
theorem C7_create_then_get (s : DBState) (r : TaskCreateRaw) (genId creator : String)
    (now : ℚ) (ok : Bool) (hv : taskCreateValid r = true)
    (hfresh : ∀ t ∈ s.tasks, t.id ≠ genId) :
    getTaskClient (createTaskService s r genId creator now ok).2 genId =
      some (createTaskService s r genId creator now ok).1 ∧
    (createTaskService s r genId creator now ok).1.title = pyStrip r.title ∧
    ∀ q : ℚ, r.estimatedHours = some q →
      (createTaskService s r genId creator now ok).1.estimatedHours = some q ∧
        0 ≤ q ∧ q ≤ 24 := by
  refine ⟨?_, rfl, ?_⟩
  · have htasks : (createTaskService s r genId creator now ok).2.tasks =
        s.tasks ++ [(createTaskService s r genId creator now ok).1] := by
      cases ok <;> rfl
    rw [getTaskClient, htasks, find?_append_of_none]
    · simp [createTaskService, List.find?]
    · rw [List.find?_eq_none]
      intro x hx
      simp [hfresh x hx]
  · intro q hq
    refine ⟨by simp [createTaskService, hq], ?_⟩
    simp only [taskCreateValid, hq, Bool.and_eq_true, decide_eq_true_eq] at hv
    exact hv.2

/-- Witness for `C7_create_then_get` on the demo payload (title `"a"`,
2-hour estimate) against the empty store. -/
theorem C7_create_then_get_witness :
    getTaskClient (createTaskService emptyDB demoRaw sampleUuid "creator" 0 true).2 sampleUuid =
      some (createTaskService emptyDB demoRaw sampleUuid "creator" 0 true).1 ∧
    (createTaskService emptyDB demoRaw sampleUuid "creator" 0 true).1.title =
      pyStrip demoRaw.title ∧
    ∀ q : ℚ, demoRaw.estimatedHours = some q →
      (createTaskService emptyDB demoRaw sampleUuid "creator" 0 true).1.estimatedHours =
        some q ∧ 0 ≤ q ∧ q ≤ 24 :=
  C7_create_then_get emptyDB demoRaw sampleUuid "creator" 0 true (by decide)
    (by decide)

/-! Section: Lemmas about one step of the reminder poller -/

theorem find?_map_id_pres (f : Reminder → Reminder) (hf : ∀ r, (f r).id = r.id)
    (rs : List Reminder) (i : String) :
    (rs.map f).find? (fun r => decide (r.id = i)) =
      (rs.find? (fun r => decide (r.id = i))).map f := by
  induction rs with
  | nil => rfl
  | cons a tl ih =>
      simp only [List.map_cons, List.find?_cons, hf a]
      rcases hd : decide (a.id = i) with _ | _
      · simpa using ih
      · simp

theorem setStatus_id_pres (rid st : String) :
    ∀ r : Reminder,
      ((fun r => if r.id = rid then { r with status := st } else r) r).id = r.id := by
  intro r
  by_cases hx : r.id = rid <;> simp [hx]

theorem find?_setReminderStatus_other (rs : List Reminder) (rid st i : String)
    (h : i ≠ rid) :
    (setReminderStatus rs rid st).find? (fun r => decide (r.id = i)) =
      rs.find? (fun r => decide (r.id = i)) := by
  unfold setReminderStatus
  rw [find?_map_id_pres _ (setStatus_id_pres rid st)]
  rcases hfind : rs.find? (fun r => decide (r.id = i)) with _ | r0
  · rw [hfind]; rfl
  · have hr0 : r0.id = i := by simpa using List.find?_some hfind
    have : ¬ r0.id = rid := by rw [hr0]; exact h
    rw [hfind]
    simp [this]

theorem find?_setReminderStatus_self (rs : List Reminder) (rid st : String)
    (h : (rs.find? (fun r => decide (r.id = rid))).isSome) :
    ((setReminderStatus rs rid st).find? (fun r => decide (r.id = rid))).map
      Reminder.status = some st := by
  unfold setReminderStatus
  rw [find?_map_id_pres _ (setStatus_id_pres rid st)]
  rcases hfind : rs.find? (fun r => decide (r.id = rid)) with _ | r0
  · rw [hfind] at h; simp at h
  · have hr0 : r0.id = rid := by simpa using List.find?_some hfind
    rw [hfind]
    simp [hr0]

theorem statusOf_send_other (s : DBState) (r : Reminder) (now : ℚ) (i : String)
    (h : i ≠ r.id) :
    statusOf (sendReminderNotification s r now) i = statusOf s i := by
  unfold statusOf sendReminderNotification
  cases hft : s.tasks.find? (fun t => decide (t.id = r.taskId)) <;>
    simp only [hft] <;>
    rw [find?_setReminderStatus_other _ _ _ _ h]

theorem notifCountFor_send_other (s : DBState) (r : Reminder) (now : ℚ) (i : String)
    (h : i ≠ r.id) :
    notifCountFor (sendReminderNotification s r now) i = notifCountFor s i := by
  unfold notifCountFor sendReminderNotification
  cases hft : s.tasks.find? (fun t => decide (t.id = r.taskId)) <;>
    simp only [hft]
  case some t =>
    rw [List.filter_append, List.length_append]
    have hri : ¬ r.id = i := fun hx => h hx.symm
    have : (List.filter (fun n => decide (n.reminderId = some i))
        [mkReminderNotif t r now]).length = 0 := by
      simp [mkReminderNotif, hri]
    omega

theorem send_self (s : DBState) (r : Reminder) (now : ℚ)
    (h : (statusOf s r.id).isSome) :
    (statusOf (sendReminderNotification s r now) r.id = some "sent" ∧
      notifCountFor (sendReminderNotification s r now) r.id = notifCountFor s r.id + 1) ∨
    (statusOf (sendReminderNotification s r now) r.id = some "failed" ∧
      notifCountFor (sendReminderNotification s r now) r.id = notifCountFor s r.id) := by
  have hfind : (s.reminders.find? (fun x => decide (x.id = r.id))).isSome := by
    simpa [statusOf, Option.isSome_map] using h
  cases hft : s.tasks.find? (fun t => decide (t.id = r.taskId))
  case none =>
    right
    constructor
    · unfold statusOf sendReminderNotification
      simp only [hft]
      exact find?_setReminderStatus_self s.reminders r.id "failed" hfind
    · unfold notifCountFor sendReminderNotification
      simp only [hft]
  case some t =>
    left
    constructor
    · unfold statusOf sendReminderNotification
      simp only [hft]
      exact find?_setReminderStatus_self s.reminders r.id "sent" hfind
    · unfold notifCountFor sendReminderNotification
      simp only [hft]
      rw [List.filter_append, List.length_append]
      have : (List.filter (fun n => decide (n.reminderId = some r.id))
          [mkReminderNotif t r now]).length = 1 := by
        simp [mkReminderNotif]
      omega

/-! Section: Fold lemmas for the reminder phase -/

theorem fold_send_preserve (now : ℚ) (l : List Reminder) :
    ∀ (s : DBState) (i : String), (∀ r ∈ l, r.id ≠ i) →
    statusOf (l.foldl (fun st r => sendReminderNotification st r now) s) i = statusOf s i ∧
    notifCountFor (l.foldl (fun st r => sendReminderNotification st r now) s) i =
      notifCountFor s i := by
  induction l with
  | nil => intro s i _; exact ⟨rfl, rfl⟩
  | cons a tl ih =>
      intro s i hne
      have hai : i ≠ a.id := fun hx => hne a (by simp) hx.symm
      have := ih (sendReminderNotification s a now) i (fun r hr => hne r (by simp [hr]))
      rw [List.foldl_cons]
      exact ⟨this.1.trans (statusOf_send_other s a now i hai),
        this.2.trans (notifCountFor_send_other s a now i hai)⟩

theorem fold_send_mem (now : ℚ) (l : List Reminder) :
    ∀ (s : DBState) (r : Reminder), (l.map Reminder.id).Nodup → r ∈ l →
    (statusOf s r.id).isSome →
    (statusOf (l.foldl (fun st x => sendReminderNotification st x now) s) r.id =
        some "sent" ∧
      notifCountFor (l.foldl (fun st x => sendReminderNotification st x now) s) r.id =
        notifCountFor s r.id + 1) ∨
    (statusOf (l.foldl (fun st x => sendReminderNotification st x now) s) r.id =
        some "failed" ∧
      notifCountFor (l.foldl (fun st x => sendReminderNotification st x now) s) r.id =
        notifCountFor s r.id) := by
  induction l with
  | nil => intro s r _ hmem; exact absurd hmem (by simp)
  | cons a tl ih =>
      intro s r hnd hmem hsome
      rw [List.map_cons, List.nodup_cons] at hnd
      rw [List.foldl_cons]
      rcases List.mem_cons.mp hmem with heq | htl
      · subst heq
        have hpres := fold_send_preserve now tl (sendReminderNotification s r now) r.id
          (fun x hx hid => hnd.1 (hid ▸ List.mem_map_of_mem Reminder.id hx))
        rcases send_self s r now hsome with ⟨h1, h2⟩ | ⟨h1, h2⟩
        · exact Or.inl ⟨hpres.1.trans h1, hpres.2.trans h2⟩
        · exact Or.inr ⟨hpres.1.trans h1, hpres.2.trans h2⟩
      · have hne : r.id ≠ a.id := by
          intro hx
          exact hnd.1 (hx ▸ List.mem_map_of_mem Reminder.id htl)
        have hst := statusOf_send_other s a now r.id hne
        have hct := notifCountFor_send_other s a now r.id hne
        have := ih (sendReminderNotification s a now) r hnd.2 htl (by rw [hst]; exact hsome)
        rw [hct] at this
        exact this

/-! Section: The estimated-time phase touches no reminder observable -/

theorem reminders_processEst (st : DBState) (t : Task) (now : ℚ) :
    (processEstTask st t now).reminders = st.reminders := by
  unfold processEstTask
  rcases t.estimatedHours with _ | h
  · rfl
  · dsimp only
    split
    · rfl
    · split
      · split <;> rfl
      · rfl

theorem notifCountFor_processEst (st : DBState) (t : Task) (now : ℚ) (i : String) :
    notifCountFor (processEstTask st t now) i = notifCountFor st i := by
  unfold processEstTask
  rcases t.estimatedHours with _ | h
  · rfl
  · dsimp only
    split
    · rfl
    · split
      · split
        · simp only [notifCountFor, List.filter_append, List.length_append]
          have : (List.filter (fun n => decide (n.reminderId = some i))
              [mkEstNotif t now]).length = 0 := by
            simp [mkEstNotif]
          omega
        · rfl
      · rfl

theorem statusOf_checkEst (s : DBState) (now : ℚ) (i : String) :
    statusOf (checkEstimatedTime s now) i = statusOf s i ∧
    notifCountFor (checkEstimatedTime s now) i = notifCountFor s i := by
  unfold checkEstimatedTime
  generalize inProgressEstTasks s = l
  induction l generalizing s with
  | nil => exact ⟨rfl, rfl⟩
  | cons a tl ih =>
      rw [List.foldl_cons]
      have hstep1 : statusOf (processEstTask s a now) i = statusOf s i := by
        unfold statusOf
        rw [reminders_processEst]
      have := ih (processEstTask s a now)
      exact ⟨this.1.trans hstep1, this.2.trans (notifCountFor_processEst s a now i)⟩

/-! Section: Claim C1 — due pending reminders after one poll cycle -/

set_option maxRecDepth 1000000 in
/-- Claim C1 counterexample.  A store with 101 reminders that are all
pending and due: the poll's due-reminder query carries `.limit(100)`, so
one cycle processes only 100 of them and the reminder with id `"100"` is
still `"pending"` afterwards — the claim's "never left pending" fails when
more than 100 reminders are due. -/
theorem C1_cap_counterexample :
    overCapState.reminders.all
      (fun r => decide (r.status = "pending") && decide (r.reminderTime ≤ 1000)) = true ∧
    (overCapState.reminders.filter (fun r => reminderDue r 1000)).length = 101 ∧
    statusOf (pollCycle overCapState 1000) "100" = some "pending" := by
  decide

/-- Claim C1 as amended.  Every due pending reminder among those the poll
actually selects (the due filter capped at 100 rows) is, after one poll
cycle, either `"sent"` with exactly one new notification row referencing it,
or `"failed"` with none — never left `"pending"`.  Reminder ids are assumed
distinct, as the store's primary key guarantees. -/
theorem C1_selected_reminders_transition (s : DBState) (now : ℚ) (r : Reminder)
    (hnd : (s.reminders.map Reminder.id).Nodup)
    (hmem : r ∈ dueReminders s now) :
    (statusOf (pollCycle s now) r.id = some "sent" ∧
      notifCountFor (pollCycle s now) r.id = notifCountFor s r.id + 1) ∨
    (statusOf (pollCycle s now) r.id = some "failed" ∧
      notifCountFor (pollCycle s now) r.id = notifCountFor s r.id) := by
  have hsub : List.Sublist (dueReminders s now) s.reminders :=
    (List.take_sublist _ _).trans (List.filter_sublist _)
  have hnd' : ((dueReminders s now).map Reminder.id).Nodup :=
    (hsub.map Reminder.id).nodup hnd
  have hin : r ∈ s.reminders := hsub.subset hmem
  have hsome : (statusOf s r.id).isSome := by
    simp only [statusOf, Option.isSome_map']
    rw [List.find?_isSome]
    exact ⟨r, hin, by simp⟩
  have main := fold_send_mem now (dueReminders s now) s r hnd' hmem hsome
  have est := statusOf_checkEst (checkReminders s now) now r.id
  unfold pollCycle
  rw [est.1, est.2]
  exact main

/-- Witness for `C1_selected_reminders_transition` on a store with one due
pending reminder. -/
theorem C1_selected_reminders_witness :
    (statusOf (pollCycle oneReminderState 10) (demoReminder 0).id = some "sent" ∧
      notifCountFor (pollCycle oneReminderState 10) (demoReminder 0).id =
        notifCountFor oneReminderState (demoReminder 0).id + 1) ∨
    (statusOf (pollCycle oneReminderState 10) (demoReminder 0).id = some "failed" ∧
      notifCountFor (pollCycle oneReminderState 10) (demoReminder 0).id =
        notifCountFor oneReminderState (demoReminder 0).id) :=
  C1_selected_reminders_transition oneReminderState 10 (demoReminder 0)
    (by decide) (by decide)

/-! Section: Claim C4 — at most one unread estimated-time notification per
task -/

theorem unreadEst_send (s : DBState) (r : Reminder) (now : ℚ) (tid : String) :
    unreadEstNotifs (sendReminderNotification s r now) tid = unreadEstNotifs s tid := by
  unfold unreadEstNotifs sendReminderNotification
  cases hft : s.tasks.find? (fun t => decide (t.id = r.taskId)) <;> simp only [hft]
  case some t =>
    rw [List.filter_append]
    simp [mkReminderNotif]

theorem unreadEst_checkRem (s : DBState) (now : ℚ) (tid : String) :
    unreadEstNotifs (checkReminders s now) tid = unreadEstNotifs s tid := by
  unfold checkReminders
  generalize dueReminders s now = l
  induction l generalizing s with
  | nil => rfl
  | cons a tl ih =>
      rw [List.foldl_cons]
      exact (ih (sendReminderNotification s a now)).trans (unreadEst_send s a now tid)

theorem unreadEst_processEst_le (st : DBState) (t : Task) (now : ℚ) (tid : String)
    (hle : (unreadEstNotifs st tid).length ≤ 1) :
    (unreadEstNotifs (processEstTask st t now) tid).length ≤ 1 := by
  unfold processEstTask
  rcases t.estimatedHours with _ | q
  · exact hle
  · dsimp only
    split
    · exact hle
    · split
      · split
        · rename_i hguard
          by_cases hti : tid = t.id
          · rw [hti]
            have h0 : unreadEstNotifs st t.id = [] := by
              cases hcs : unreadEstNotifs st t.id with
              | nil => rfl
              | cons x xs => rw [hcs] at hguard; simp [List.isEmpty] at hguard
            simp only [unreadEstNotifs] at h0 ⊢
            rw [List.filter_append, List.length_append, h0]
            simp [mkEstNotif]
          · have hne : ¬ t.id = tid := fun hx => hti hx.symm
            simp only [unreadEstNotifs] at hle ⊢
            rw [List.filter_append, List.length_append]
            have : (List.filter (fun n =>
                decide (n.taskId = tid) && decide (n.category = "estimated_time") &&
                  !n.isRead) [mkEstNotif t now]).length = 0 := by
              simp [mkEstNotif, hne]
            omega
        · exact hle
      · exact hle

theorem fold_est_preserve (now : ℚ) (l : List Task) :
    ∀ st : DBState, (∀ tid, (unreadEstNotifs st tid).length ≤ 1) →
    ∀ tid, (unreadEstNotifs (l.foldl (fun a t => processEstTask a t now) st) tid).length ≤ 1 := by
  induction l with
  | nil => intro st h tid; exact h tid
  | cons a tl ih =>
      intro st h tid
      rw [List.foldl_cons]
      exact ih (processEstTask st a now)
        (fun tid2 => unreadEst_processEst_le st a now tid2 (h tid2)) tid

theorem pollCycle_unread_inv (s : DBState) (now : ℚ)
    (h : ∀ tid, (unreadEstNotifs s tid).length ≤ 1) :
    ∀ tid, (unreadEstNotifs (pollCycle s now) tid).length ≤ 1 := by
  intro tid
  unfold pollCycle checkEstimatedTime
  apply fold_est_preserve
  intro tid2
  rw [unreadEst_checkRem]
  exact h tid2

/-- Claim C4.  If a store has at most one unread `"estimated_time"`
notification per task — as any store whose notifications were only ever
written by the poller does — then after two poll cycles (and, by the
underlying invariant, any number of them) it still has at most one: the
dedup check queries the current unread rows of the same category for the
task before inserting, and the reminder phase only inserts rows of category
`"reminder"`. -/
theorem C4_at_most_one_unread_est (s : DBState) (now1 now2 : ℚ)
    (h : ∀ tid, (unreadEstNotifs s tid).length ≤ 1) (tid : String) :
    (unreadEstNotifs (pollCycle (pollCycle s now1) now2) tid).length ≤ 1 :=
  pollCycle_unread_inv (pollCycle s now1) now2 (pollCycle_unread_inv s now1 h) tid

/-- Witness for `C4_at_most_one_unread_est` on a store holding one
in-progress task with a one-hour estimate and no notifications. -/
theorem C4_at_most_one_unread_est_witness :
    (unreadEstNotifs (pollCycle (pollCycle inProgressState 5) 6) "t2").length ≤ 1 :=
  C4_at_most_one_unread_est inProgressState 5 6
    (fun tid => by simp [unreadEstNotifs, inProgressState]) "t2"

end TaskManager
